import Mathlib

/-!
Undo-token control and buffer reset of `VoltDBEngine`.

A shallow embedding of the inline member functions of
`src/ee/execution/VoltDBEngine.h` that manage the current undo quantum
(`setUndoToken`, `releaseUndoToken`, `undoUndoToken`) and the reused
result / exception buffers (`setBuffers`, `resetReusedResultOutputBuffer`).

Conventions of the embedding:

* `int64_t` / `int32_t` / `int` values are `Int`; the functions embedded here
  only compare and copy them, so no wrap-around can occur.
* A failed `assert` aborts the process; it is an `Except.error` carrying the
  engine state at the moment of the abort (asserts are taken as compiled in).
* The classes `UndoLog`, `UndoQuantum`, `ReferenceSerializeOutput` and
  `FallbackSerializeOutput` are only *used* by the header.  Their operations
  are taken as a parameter (`Externals`), so that what is proved about the
  engine holds for every implementation of them.  `generateUndoQuantum` may
  refuse a token: the contract of section 4.2 of the specification makes a
  token below an earlier one a fatal error of that operation.
-/

namespace voltdb

/-- The largest `int64_t`, the token value that `setUndoToken` ignores. -/
def INT64_MAX : Int := 9223372036854775807

/-- Value of the pointer member `m_currentUndoQuantum`: `NULL`, the address of
the `m_dummyUndoQuantum` member of the engine, or a quantum handed out by the
undo log. -/
inductive QuantumPtr (Q : Type) where
  | null : QuantumPtr Q
  | dummy : QuantumPtr Q
  | real (q : Q) : QuantumPtr Q
  deriving DecidableEq, Repr

/-- Operations and constants that `VoltDBEngine.h` uses but does not define
(`common/UndoLog.h`, `common/UndoQuantum.h`, `common/serializeio.h`,
`common/types.h`), taken as parameters.  `L` is the state of an `UndoLog`,
`Q` an `UndoQuantum`, `S` the state of a serializer. -/
structure Externals (L Q S : Type) where
  /-- The accessor `UndoQuantum::getUndoToken()` -/
  getUndoToken : Q → Int
  /-- The call `UndoLog::generateUndoQuantum(token)`: the log afterwards and the
  quantum returned, or `none` when the undo log treats the token as a contract
  violation, which is fatal -/
  generateUndoQuantum : L → Int → Option (L × Q)
  /-- The call `UndoLog::release(token)` -/
  release : L → Int → L
  /-- The call `UndoLog::undo(token)` -/
  undo : L → Int → L
  /-- The call `FallbackSerializeOutput::initializeWithPosition(buffer, capacity, position)` -/
  fallbackInitializeWithPosition : S → Nat → Int → Int → S
  /-- The call `ReferenceSerializeOutput::initializeWithPosition(buffer, capacity, position)` -/
  referenceInitializeWithPosition : S → Nat → Int → Int → S
  /-- The enumerator `VOLT_EE_EXCEPTION_TYPE_NONE` -/
  VOLT_EE_EXCEPTION_TYPE_NONE : Int

/-- The data members of `VoltDBEngine` read or written by the embedded
functions, under their names in the header.  Buffers are addresses into the
memory of the caller. -/
structure VoltDBEngine (L Q S : Type) where
  m_undoLog : L
  m_currentUndoQuantum : QuantumPtr Q
  m_resultOutput : S
  m_exceptionOutput : S
  m_exceptionBuffer : Nat
  m_exceptionBufferCapacity : Int
  m_reusedResultBuffer : Nat
  m_reusedResultCapacity : Int
  m_currentOutputDepId : Int
  m_currentInputDepId : Int
  m_numResultDependencies : Int
  deriving DecidableEq, Repr

/-- A fatal error during a call on the engine, with the members of the engine
as they were at the abort. -/
inductive Fault (E : Type) where
  /-- The assertion `nextUndoToken >= m_currentUndoQuantum->getUndoToken()` of `setUndoToken` -/
  | undoTokenAssertion (state : E) : Fault E
  /-- The undo log refused the token inside `generateUndoQuantum` (line 310) -/
  | generateUndoQuantumFault (state : E) : Fault E
  deriving DecidableEq, Repr

section Engine

variable {L Q S : Type}

/-- Modelled from the spec: the body of `VoltDBEngine::setUndoQuantum` is in
`VoltDBEngine.cpp`, which is not among the sources; the header only declares it
(line 390).  Per the spec the generated quantum is installed as the current
quantum. -/
def setUndoQuantum (e : VoltDBEngine L Q S) (undoQuantum : Q) : VoltDBEngine L Q S :=
  { e with m_currentUndoQuantum := QuantumPtr.real undoQuantum }

/-- The member function `VoltDBEngine::setUndoToken` (lines 300-311).  The three
branches of the `match` are the outcomes of the test
`m_currentUndoQuantum != NULL && m_currentUndoQuantum != &m_dummyUndoQuantum`;
`generate` is the last statement,
`setUndoQuantum(m_undoLog.generateUndoQuantum(nextUndoToken))`. -/
def setUndoToken (X : Externals L Q S) (e : VoltDBEngine L Q S) (nextUndoToken : Int) :
    Except (Fault (VoltDBEngine L Q S)) (VoltDBEngine L Q S) :=
  if nextUndoToken = INT64_MAX then
    Except.ok e
  else
    let generate : Except (Fault (VoltDBEngine L Q S)) (VoltDBEngine L Q S) :=
      match X.generateUndoQuantum e.m_undoLog nextUndoToken with
      | some r => Except.ok (setUndoQuantum { e with m_undoLog := r.1 } r.2)
      | none => Except.error (Fault.generateUndoQuantumFault e)
    match e.m_currentUndoQuantum with
    | QuantumPtr.real q =>
      if X.getUndoToken q ≤ nextUndoToken then
        if X.getUndoToken q = nextUndoToken then
          Except.ok e
        else
          generate
      else
        Except.error (Fault.undoTokenAssertion e)
    | QuantumPtr.null => generate
    | QuantumPtr.dummy => generate

/-- The member function `VoltDBEngine::releaseUndoToken` (lines 313-321). -/
def releaseUndoToken (X : Externals L Q S) (e : VoltDBEngine L Q S) (undoToken : Int) :
    VoltDBEngine L Q S :=
  match e.m_currentUndoQuantum with
  | QuantumPtr.dummy => e
  | QuantumPtr.null => { e with m_undoLog := X.release e.m_undoLog undoToken }
  | QuantumPtr.real q =>
    if X.getUndoToken q = undoToken then
      { e with m_currentUndoQuantum := QuantumPtr.null,
               m_undoLog := X.release e.m_undoLog undoToken }
    else
      { e with m_undoLog := X.release e.m_undoLog undoToken }

/-- The member function `VoltDBEngine::undoUndoToken` (lines 323-329). -/
def undoUndoToken (X : Externals L Q S) (e : VoltDBEngine L Q S) (undoToken : Int) :
    VoltDBEngine L Q S :=
  match e.m_currentUndoQuantum with
  | QuantumPtr.dummy => e
  | _ => { e with m_undoLog := X.undo e.m_undoLog undoToken,
                  m_currentUndoQuantum := QuantumPtr.null }

/-- One call of the undo-control interface, as issued by the transaction
coordinator. -/
inductive UndoCall where
  | setUndoToken (token : Int) : UndoCall
  | releaseUndoToken (token : Int) : UndoCall
  | undoUndoToken (token : Int) : UndoCall
  deriving DecidableEq, Repr

/-- Perform one call on the engine. -/
def call (X : Externals L Q S) (e : VoltDBEngine L Q S) :
    UndoCall → Except (Fault (VoltDBEngine L Q S)) (VoltDBEngine L Q S)
  | UndoCall.setUndoToken t => setUndoToken X e t
  | UndoCall.releaseUndoToken t => Except.ok (releaseUndoToken X e t)
  | UndoCall.undoUndoToken t => Except.ok (undoUndoToken X e t)

/-- Perform a sequence of calls in order; the first fatal error ends the run. -/
def run (X : Externals L Q S) (e : VoltDBEngine L Q S) :
    List UndoCall → Except (Fault (VoltDBEngine L Q S)) (VoltDBEngine L Q S)
  | [] => Except.ok e
  | c :: cs =>
    match call X e c with
    | Except.ok e1 => run X e1 cs
    | Except.error f => Except.error f

/-- The member function `VoltDBEngine::setBuffers` (lines 201-208). -/
def setBuffers (e : VoltDBEngine L Q S) (resultBuffer : Nat) (resultBufferCapacity : Int)
    (exceptionBuffer : Nat) (exceptionBufferCapacity : Int) : VoltDBEngine L Q S :=
  { e with m_reusedResultBuffer := resultBuffer,
           m_reusedResultCapacity := resultBufferCapacity,
           m_exceptionBuffer := exceptionBuffer,
           m_exceptionBufferCapacity := exceptionBufferCapacity }

/-- The member function `VoltDBEngine::getReusedResultBuffer` (line 217). -/
def getReusedResultBuffer (e : VoltDBEngine L Q S) : Nat := e.m_reusedResultBuffer

/-- The member function `VoltDBEngine::getReusedResultBufferCapacity` (line 219). -/
def getReusedResultBufferCapacity (e : VoltDBEngine L Q S) : Int := e.m_reusedResultCapacity

end Engine

/-- The memory of the caller, byte by byte: the value stored at each address. -/
abbrev Memory := Nat → Nat

/-- The store `*reinterpret_cast<int32_t*>(addr) = v`: the four bytes of `v`
modulo 2^32, least significant byte first (the byte order of the x86-64 hosts
the engine is built for). -/
def storeInt32 (mem : Memory) (addr : Nat) (v : Int) : Memory :=
  fun a =>
    if addr ≤ a ∧ a < addr + 4 then (v % 4294967296).toNat / 256 ^ (a - addr) % 256
    else mem a

/-- The load `*reinterpret_cast<int32_t*>(addr)`. -/
def loadInt32 (mem : Memory) (addr : Nat) : Int :=
  let u : Nat := mem addr % 256 + 256 * (mem (addr + 1) % 256)
    + 65536 * (mem (addr + 2) % 256) + 16777216 * (mem (addr + 3) % 256)
  if u < 2147483648 then (u : Int) else (u : Int) - 4294967296

section Buffers

variable {L Q S : Type}

/-- The member function `VoltDBEngine::resetReusedResultOutputBuffer` (lines
192-196): the engine and the memory of the caller afterwards. -/
def resetReusedResultOutputBuffer (X : Externals L Q S) (e : VoltDBEngine L Q S)
    (mem : Memory) : VoltDBEngine L Q S × Memory :=
  let resultOutput := X.fallbackInitializeWithPosition e.m_resultOutput
    e.m_reusedResultBuffer e.m_reusedResultCapacity 0
  let exceptionOutput := X.referenceInitializeWithPosition e.m_exceptionOutput
    e.m_exceptionBuffer e.m_exceptionBufferCapacity 0
  let e2 := { e with m_resultOutput := resultOutput, m_exceptionOutput := exceptionOutput }
  (e2, storeInt32 mem e2.m_exceptionBuffer X.VOLT_EE_EXCEPTION_TYPE_NONE)

end Buffers

/-! ## An instance of the external classes, for evaluating the engine -/

/-- Modelled from the spec: `UndoQuantum` of `common/UndoQuantum.h`, which is
not among the sources: "identified by a token".  The undo actions it holds play
no part in the engine functions embedded here and are left out. -/
structure UndoQuantum where
  undoToken : Int
  deriving DecidableEq, Repr

/-- Modelled from the spec: `UndoLog` of `common/UndoLog.h`, which is not among
the sources: "an ordered collection of quanta indexed by token", oldest first,
together with the token of the latest `generateUndoQuantum` (`none` before the
first), which the contract of section 4.2 refers to. -/
structure UndoLog where
  quanta : List UndoQuantum
  lastToken : Option Int
  deriving DecidableEq, Repr

/-- Modelled from the spec: whether a token respects "tokens ... must be
monotonically non-decreasing across calls for a given engine instance": it is
not below the token of the latest `generateUndoQuantum`. -/
def UndoLog.accepts (log : UndoLog) (token : Int) : Bool :=
  match log.lastToken with
  | some t => decide (t ≤ token)
  | none => true

/-- Modelled from the spec: `UndoLog::generateUndoQuantum`, "creates ... a new
current quantum" for the token; a token that breaks the monotonicity contract
"is a programming-contract error (fatal, not recoverable)". -/
def UndoLog.generateUndoQuantum (log : UndoLog) (token : Int) :
    Option (UndoLog × UndoQuantum) :=
  if log.accepts token then
    some ({ quanta := log.quanta ++ [{ undoToken := token }], lastToken := some token },
          { undoToken := token })
  else
    none

/-- Modelled from the spec: `UndoLog::release`, "discard all quanta ≤ token". -/
def UndoLog.release (log : UndoLog) (token : Int) : UndoLog :=
  { log with quanta := log.quanta.filter (fun q => decide (token < q.undoToken)) }

/-- Modelled from the spec: `UndoLog::undo`, "apply undo actions of all quanta
≥ token ..., then discard them". -/
def UndoLog.undo (log : UndoLog) (token : Int) : UndoLog :=
  { log with quanta := log.quanta.filter (fun q => decide (q.undoToken < token)) }

/-- Modelled from the spec: the serializers of `common/serializeio.h`, which is
not among the sources: a borrowed buffer, its capacity and a write cursor. -/
structure SerializeOutput where
  buffer : Nat
  capacity : Int
  position : Int
  deriving DecidableEq, Repr

/-- Modelled from the spec: `initializeWithPosition` points the serializer at
the buffer and sets its write cursor. -/
def SerializeOutput.initializeWithPosition (_s : SerializeOutput) (buffer : Nat)
    (capacity position : Int) : SerializeOutput :=
  { buffer := buffer, capacity := capacity, position := position }

/-- Modelled from the spec: the external classes as the spec describes them;
the "no exception" marker `VOLT_EE_EXCEPTION_TYPE_NONE` is taken to be 0. -/
def specExternals : Externals UndoLog UndoQuantum SerializeOutput where
  getUndoToken := UndoQuantum.undoToken
  generateUndoQuantum := UndoLog.generateUndoQuantum
  release := UndoLog.release
  undo := UndoLog.undo
  fallbackInitializeWithPosition := SerializeOutput.initializeWithPosition
  referenceInitializeWithPosition := SerializeOutput.initializeWithPosition
  VOLT_EE_EXCEPTION_TYPE_NONE := 0

/-- The constructor `VoltDBEngine::VoltDBEngine()` (lines 116-123), the one for
test code, over the instance above: the members it initialises get the values
of its initialiser list, the undo log is default-constructed (empty), and the
members it leaves uninitialised are taken from `raw`. -/
def testEngine (raw : VoltDBEngine UndoLog UndoQuantum SerializeOutput) :
    VoltDBEngine UndoLog UndoQuantum SerializeOutput :=
  { raw with m_undoLog := { quanta := [], lastToken := none },
             m_currentUndoQuantum := QuantumPtr.dummy,
             m_currentOutputDepId := -1,
             m_currentInputDepId := -1,
             m_numResultDependencies := 0 }

/-- Some content for the members the test constructor leaves uninitialised. -/
def rawEngine : VoltDBEngine UndoLog UndoQuantum SerializeOutput where
  m_undoLog := { quanta := [], lastToken := none }
  m_currentUndoQuantum := QuantumPtr.null
  m_resultOutput := { buffer := 0, capacity := 0, position := 0 }
  m_exceptionOutput := { buffer := 0, capacity := 0, position := 0 }
  m_exceptionBuffer := 0
  m_exceptionBufferCapacity := 0
  m_reusedResultBuffer := 0
  m_reusedResultCapacity := 0
  m_currentOutputDepId := 0
  m_currentInputDepId := 0
  m_numResultDependencies := 0

/-- An engine whose current quantum is the real quantum with token `t`, the
only quantum of its undo log (the state after `setUndoToken(t)` on a fresh
test engine). -/
def armedEngine (t : Int) : VoltDBEngine UndoLog UndoQuantum SerializeOutput :=
  { testEngine rawEngine with
      m_undoLog := { quanta := [{ undoToken := t }], lastToken := some t },
      m_currentUndoQuantum := QuantumPtr.real { undoToken := t } }

/-- An engine whose current quantum is unset after the quantum with token `t`
was generated and discarded again (the state after `setUndoToken(t)` followed
by `releaseUndoToken(t)`, or by `undoUndoToken(t)`, on a fresh test engine). -/
def disarmedEngine (t : Int) : VoltDBEngine UndoLog UndoQuantum SerializeOutput :=
  { testEngine rawEngine with
      m_undoLog := { quanta := [], lastToken := some t },
      m_currentUndoQuantum := QuantumPtr.null }

/-! ## Theorems -/

section UndoControl

variable {L Q S : Type}

/-- C1. Undo monotonicity: when the current quantum is a real quantum with
token `t`, `setUndoToken(n)` with `n < t` and `n ≠ INT64_MAX` fails the
monotonicity assertion; the engine state at the abort is the state before the
call, so no quantum was generated or installed. -/
theorem setUndoToken_lower_token_rejected (X : Externals L Q S) (e : VoltDBEngine L Q S)
    (q : Q) (n : Int) (hcur : e.m_currentUndoQuantum = QuantumPtr.real q)
    (hlt : n < X.getUndoToken q) (hmax : n ≠ INT64_MAX) :
    setUndoToken X e n = Except.error (Fault.undoTokenAssertion e) := by
  have hnle : ¬ X.getUndoToken q ≤ n := not_le.mpr hlt
  simp [setUndoToken, hmax, hcur, hnle]

/-- Witness of C1, `setUndoToken(5)` followed by `setUndoToken(3)`: the first
call on a fresh test engine arms the quantum with token 5, the second fails the
assertion in that state. -/
theorem setUndoToken_lower_token_rejected_witness :
    setUndoToken specExternals (testEngine rawEngine) 5 = Except.ok (armedEngine 5) ∧
    setUndoToken specExternals (armedEngine 5) 3
      = Except.error (Fault.undoTokenAssertion (armedEngine 5)) :=
  ⟨rfl, setUndoToken_lower_token_rejected specExternals (armedEngine 5)
    { undoToken := 5 } 3 rfl (by decide) (by decide)⟩

/-- C2. Idempotent re-arm: when the current quantum is a real quantum with
token `t`, `setUndoToken(t)` returns the engine unchanged (same undo log, same
current quantum: nothing was generated), and calling it twice in a row gives
the same state as calling it once. -/
theorem setUndoToken_same_token_noop (X : Externals L Q S) (e : VoltDBEngine L Q S)
    (q : Q) (hcur : e.m_currentUndoQuantum = QuantumPtr.real q) :
    setUndoToken X e (X.getUndoToken q) = Except.ok e ∧
    (setUndoToken X e (X.getUndoToken q) >>= fun e1 => setUndoToken X e1 (X.getUndoToken q))
      = setUndoToken X e (X.getUndoToken q) := by
  have h1 : setUndoToken X e (X.getUndoToken q) = Except.ok e := by
    simp [setUndoToken, hcur]
  refine ⟨h1, ?_⟩
  rw [h1]
  show setUndoToken X e (X.getUndoToken q) = Except.ok e
  exact h1

/-- Witness of C2, `setUndoToken(5)` then `setUndoToken(5)` again. -/
theorem setUndoToken_same_token_noop_witness :
    setUndoToken specExternals (armedEngine 5) 5 = Except.ok (armedEngine 5) ∧
    (setUndoToken specExternals (armedEngine 5) 5
        >>= fun e1 => setUndoToken specExternals e1 5)
      = setUndoToken specExternals (armedEngine 5) 5 :=
  setUndoToken_same_token_noop specExternals (armedEngine 5) { undoToken := 5 } rfl

/-- Where `setUndoToken` gets to its last statement (token other than
`INT64_MAX`; current quantum unset, the sentinel, or real with a lower token),
its outcome is that of the one call of `generateUndoQuantum`: the quantum
returned is installed, or the call is fatal in the unchanged engine. -/
theorem setUndoToken_reaches_generate (X : Externals L Q S) (e : VoltDBEngine L Q S)
    (n : Int) (hmax : n ≠ INT64_MAX)
    (hcur : e.m_currentUndoQuantum = QuantumPtr.null ∨
      e.m_currentUndoQuantum = QuantumPtr.dummy ∨
      ∃ q, e.m_currentUndoQuantum = QuantumPtr.real q ∧ X.getUndoToken q < n) :
    setUndoToken X e n
      = match X.generateUndoQuantum e.m_undoLog n with
        | some r => Except.ok { e with m_undoLog := r.1,
                                       m_currentUndoQuantum := QuantumPtr.real r.2 }
        | none => Except.error (Fault.generateUndoQuantumFault e) := by
  rcases hcur with h | h | ⟨q, h, hlt⟩
  · simp only [setUndoToken, if_neg hmax, h]
    cases X.generateUndoQuantum e.m_undoLog n <;> rfl
  · simp only [setUndoToken, if_neg hmax, h]
    cases X.generateUndoQuantum e.m_undoLog n <;> rfl
  · have hle : X.getUndoToken q ≤ n := le_of_lt hlt
    have hne : X.getUndoToken q ≠ n := ne_of_lt hlt
    simp only [setUndoToken, if_neg hmax, h, if_pos hle, if_neg hne]
    cases X.generateUndoQuantum e.m_undoLog n <;> rfl

/-- C4, counterexample.  On a fresh test engine `setUndoToken(5)` followed by
`releaseUndoToken(5)` leaves the current quantum unset; `setUndoToken(3)` in
that state does not arm a quantum with token 3: the undo log refuses the
token, below the token 5 it was given before, and the call is fatal. -/
theorem setUndoToken_unset_lower_token_not_armed :
    run specExternals (testEngine rawEngine)
      [UndoCall.setUndoToken 5, UndoCall.releaseUndoToken 5] = Except.ok (disarmedEngine 5) ∧
    (disarmedEngine 5).m_currentUndoQuantum = QuantumPtr.null ∧
    (3 : Int) ≠ INT64_MAX ∧
    setUndoToken specExternals (disarmedEngine 5) 3
      = Except.error (Fault.generateUndoQuantumFault (disarmedEngine 5)) :=
  ⟨rfl, rfl, by decide, rfl⟩

/-- C4, as amended.  For a token `n ≠ INT64_MAX`, when the current quantum is
unset, is the sentinel, or is a real quantum with a token below `n`,
`setUndoToken(n)` asks the undo log once for a quantum for `n`.  When the undo
log accepts the token (it was not given a higher one before), the log holds
one more quantum, with token `n`, that quantum is the current quantum
afterwards, and nothing else changes; when the undo log refuses the token the
call is fatal and the engine is as before. -/
theorem setUndoToken_arms_fresh_quantum
    (e : VoltDBEngine UndoLog UndoQuantum SerializeOutput) (n : Int) (hmax : n ≠ INT64_MAX)
    (hcur : e.m_currentUndoQuantum = QuantumPtr.null ∨
      e.m_currentUndoQuantum = QuantumPtr.dummy ∨
      ∃ q, e.m_currentUndoQuantum = QuantumPtr.real q ∧ q.undoToken < n) :
    (e.m_undoLog.accepts n = true →
      setUndoToken specExternals e n
        = Except.ok { e with
            m_undoLog := { quanta := e.m_undoLog.quanta ++ [{ undoToken := n }],
                           lastToken := some n },
            m_currentUndoQuantum := QuantumPtr.real { undoToken := n } }) ∧
    (e.m_undoLog.accepts n = false →
      setUndoToken specExternals e n = Except.error (Fault.generateUndoQuantumFault e)) := by
  have hgen := setUndoToken_reaches_generate specExternals e n hmax hcur
  constructor
  · intro hacc
    rw [hgen]
    simp [specExternals, UndoLog.generateUndoQuantum, hacc]
  · intro hacc
    rw [hgen]
    simp [specExternals, UndoLog.generateUndoQuantum, hacc]

/-- Witness of the amended C4: `setUndoToken(7)` while the quantum with token 5
is current. -/
theorem setUndoToken_arms_fresh_quantum_witness :
    setUndoToken specExternals (armedEngine 5) 7
      = Except.ok { armedEngine 5 with
          m_undoLog := { quanta := (armedEngine 5).m_undoLog.quanta ++ [{ undoToken := 7 }],
                         lastToken := some 7 },
          m_currentUndoQuantum := QuantumPtr.real { undoToken := 7 } } :=
  (setUndoToken_arms_fresh_quantum (armedEngine 5) 7 (by decide)
    (Or.inr (Or.inr ⟨{ undoToken := 5 }, rfl, by decide⟩))).1 rfl

/-- C5. After undo the current quantum is unset: when the current quantum is
not the sentinel, `undoUndoToken(u)` for any token `u` leaves the undo log as
the log after one `undo(u)`, the current quantum pointer `NULL`, and everything
else as it was. -/
theorem undoUndoToken_unsets_current (X : Externals L Q S) (e : VoltDBEngine L Q S)
    (u : Int) (hcur : e.m_currentUndoQuantum ≠ QuantumPtr.dummy) :
    undoUndoToken X e u
      = { e with m_undoLog := X.undo e.m_undoLog u,
                 m_currentUndoQuantum := QuantumPtr.null } := by
  unfold undoUndoToken
  split
  · next h => exact absurd h hcur
  · rfl

/-- Witness of C5: undoing token 9 while the quantum with token 5 is current. -/
theorem undoUndoToken_unsets_current_witness :
    undoUndoToken specExternals (armedEngine 5) 9
      = { armedEngine 5 with
            m_undoLog := specExternals.undo (armedEngine 5).m_undoLog 9,
            m_currentUndoQuantum := QuantumPtr.null } :=
  undoUndoToken_unsets_current specExternals (armedEngine 5) 9 (by decide)

/-- C6. Releasing a token other than that of the current quantum: when the
current quantum is a real quantum with token `t`, `releaseUndoToken(u)` with `u ≠ t`
changes only the undo log, to the log after one `release(u)`, so the current
quantum pointer is as before; with `u = t` the pointer becomes unset. -/
theorem releaseUndoToken_other_token_keeps_current (X : Externals L Q S)
    (e : VoltDBEngine L Q S) (q : Q) (u : Int)
    (hcur : e.m_currentUndoQuantum = QuantumPtr.real q) :
    (u ≠ X.getUndoToken q →
      releaseUndoToken X e u = { e with m_undoLog := X.release e.m_undoLog u }) ∧
    (u = X.getUndoToken q →
      releaseUndoToken X e u
        = { e with m_undoLog := X.release e.m_undoLog u,
                   m_currentUndoQuantum := QuantumPtr.null }) := by
  constructor
  · intro hne
    have hne2 : ¬ X.getUndoToken q = u := fun h => hne h.symm
    simp [releaseUndoToken, hcur, hne2]
  · intro heq
    simp [releaseUndoToken, hcur, heq]

/-- Witness of C6: releasing token 3 while the quantum with token 5 is current. -/
theorem releaseUndoToken_other_token_keeps_current_witness :
    (releaseUndoToken specExternals (armedEngine 5) 3).m_currentUndoQuantum
      = QuantumPtr.real { undoToken := 5 } ∧
    (releaseUndoToken specExternals (armedEngine 5) 3).m_undoLog
      = specExternals.release (armedEngine 5).m_undoLog 3 := by
  have h := (releaseUndoToken_other_token_keeps_current specExternals (armedEngine 5)
    { undoToken := 5 } 3 rfl).1 (by decide)
  rw [h]
  exact ⟨rfl, rfl⟩

/-- C8. No-transaction sentinel token: in every engine state
`setUndoToken(INT64_MAX)` succeeds (no assertion is evaluated) and returns the
engine unchanged: no quantum is generated, the current quantum and the undo log
are as before. -/
theorem setUndoToken_int64_max_noop (X : Externals L Q S) (e : VoltDBEngine L Q S) :
    setUndoToken X e INT64_MAX = Except.ok e := by
  simp [setUndoToken]

/-- C7, counterexample.  With the quantum with token 5 current,
`undoUndoToken(3)` does not leave the current quantum pointer unchanged: it is
`NULL` afterwards. -/
theorem undoUndoToken_other_token_changes_current :
    (armedEngine 5).m_currentUndoQuantum = QuantumPtr.real { undoToken := 5 } ∧
    (undoUndoToken specExternals (armedEngine 5) 3).m_currentUndoQuantum = QuantumPtr.null ∧
    (undoUndoToken specExternals (armedEngine 5) 3).m_currentUndoQuantum
      ≠ (armedEngine 5).m_currentUndoQuantum :=
  ⟨rfl, rfl, by decide⟩

/-- C7, as amended.  Undoing a token other than that of the current quantum unsets
the current quantum all the same: when the current quantum is a real quantum
with token `t` and `u ≠ t`, the current quantum pointer after
`undoUndoToken(u)` is `NULL`, no longer the quantum with token `t`. -/
theorem undoUndoToken_other_token_unsets_current (X : Externals L Q S)
    (e : VoltDBEngine L Q S) (q : Q) (u : Int)
    (hcur : e.m_currentUndoQuantum = QuantumPtr.real q) (_hne : u ≠ X.getUndoToken q) :
    (undoUndoToken X e u).m_currentUndoQuantum = QuantumPtr.null ∧
    (undoUndoToken X e u).m_currentUndoQuantum ≠ e.m_currentUndoQuantum := by
  have hnull : (undoUndoToken X e u).m_currentUndoQuantum = QuantumPtr.null := by
    simp [undoUndoToken, hcur]
  refine ⟨hnull, ?_⟩
  rw [hnull, hcur]
  intro h
  cases h

/-- Witness of the amended C7: undoing token 9 while the quantum with token 5
is current. -/
theorem undoUndoToken_other_token_unsets_current_witness :
    (undoUndoToken specExternals (armedEngine 5) 9).m_currentUndoQuantum = QuantumPtr.null ∧
    (undoUndoToken specExternals (armedEngine 5) 9).m_currentUndoQuantum
      ≠ (armedEngine 5).m_currentUndoQuantum :=
  undoUndoToken_other_token_unsets_current specExternals (armedEngine 5)
    { undoToken := 5 } 9 rfl (by decide)

/-- C10, counterexample.  With the quantum with token 5 current,
`releaseUndoToken(7)` leaves the current quantum pointer at the quantum with
token 5, which is neither unset nor a quantum with a token above 7, while the
undo log has discarded that quantum. -/
theorem releaseUndoToken_higher_token_keeps_released_quantum :
    (releaseUndoToken specExternals (armedEngine 5) 7).m_currentUndoQuantum
      = QuantumPtr.real { undoToken := 5 } ∧
    ¬ ((7 : Int) < specExternals.getUndoToken { undoToken := 5 }) ∧
    (releaseUndoToken specExternals (armedEngine 5) 7).m_undoLog.quanta = [] :=
  ⟨rfl, by decide, rfl⟩

/-- C10, as amended.  When the current quantum is a real quantum with token
`t` and `u ≤ t`, after `releaseUndoToken(u)` the current quantum is unset (the
case `u = t`) or a quantum with a token above `u` (the case `u < t`, where it
is still the quantum with token `t`). -/
theorem releaseUndoToken_current_after_release (X : Externals L Q S)
    (e : VoltDBEngine L Q S) (q : Q) (u : Int)
    (hcur : e.m_currentUndoQuantum = QuantumPtr.real q) (hle : u ≤ X.getUndoToken q) :
    ((releaseUndoToken X e u).m_currentUndoQuantum = QuantumPtr.null ∧
      u = X.getUndoToken q) ∨
    ((releaseUndoToken X e u).m_currentUndoQuantum = QuantumPtr.real q ∧
      u < X.getUndoToken q) := by
  by_cases heq : X.getUndoToken q = u
  · left
    refine ⟨?_, heq.symm⟩
    simp [releaseUndoToken, hcur, heq]
  · right
    refine ⟨?_, lt_of_le_of_ne hle (fun h => heq h.symm)⟩
    simp [releaseUndoToken, hcur, heq]

/-- Witness of the amended C10: releasing token 3 while the quantum with token
5 is current. -/
theorem releaseUndoToken_current_after_release_witness :
    ((releaseUndoToken specExternals (armedEngine 5) 3).m_currentUndoQuantum
        = QuantumPtr.null ∧ (3 : Int) = specExternals.getUndoToken { undoToken := 5 }) ∨
    ((releaseUndoToken specExternals (armedEngine 5) 3).m_currentUndoQuantum
        = QuantumPtr.real { undoToken := 5 } ∧
      (3 : Int) < specExternals.getUndoToken { undoToken := 5 }) :=
  releaseUndoToken_current_after_release specExternals (armedEngine 5)
    { undoToken := 5 } 3 rfl (by decide)

end UndoControl

section BufferReset

variable {L Q S : Type}

/-- A stored `int32_t` is read back from the same address. -/
theorem loadInt32_storeInt32 (mem : Memory) (addr : Nat) (v : Int)
    (hlo : -2147483648 ≤ v) (hhi : v < 2147483648) :
    loadInt32 (storeInt32 mem addr v) addr = v := by
  have h0 : addr ≤ addr ∧ addr < addr + 4 := ⟨le_refl _, by omega⟩
  have h1 : addr ≤ addr + 1 ∧ addr + 1 < addr + 4 := ⟨by omega, by omega⟩
  have h2 : addr ≤ addr + 2 ∧ addr + 2 < addr + 4 := ⟨by omega, by omega⟩
  have h3 : addr ≤ addr + 3 ∧ addr + 3 < addr + 4 := ⟨by omega, by omega⟩
  have e0 : addr - addr = 0 := by omega
  have e1 : addr + 1 - addr = 1 := by omega
  have e2 : addr + 2 - addr = 2 := by omega
  have e3 : addr + 3 - addr = 3 := by omega
  unfold loadInt32 storeInt32
  simp only [if_pos h0, if_pos h1, if_pos h2, if_pos h3, e0, e1, e2, e3]
  norm_num
  split <;> omega

/-- A store of an `int32_t` changes no byte outside the four it writes. -/
theorem storeInt32_outside (mem : Memory) (addr : Nat) (v : Int) (a : Nat)
    (h : a < addr ∨ addr + 4 ≤ a) : storeInt32 mem addr v a = mem a := by
  unfold storeInt32
  have hn : ¬ (addr ≤ a ∧ a < addr + 4) := by omega
  rw [if_neg hn]

/-- C9. Buffer reset: after `setBuffers(rb, rc, eb, ec)` with `ec ≥ 4`,
`resetReusedResultOutputBuffer` initialises the result serializer with
`(rb, rc, 0)` and the exception serializer with `(eb, ec, 0)`, leaves every
other member of the engine as `setBuffers` left it (undo log, current quantum
and dependency ids as before), and writes `VOLT_EE_EXCEPTION_TYPE_NONE` (an
enumerator, taken to fit an `int32_t`) as an `int32_t` at `eb`: that value is
read back at `eb`, and every byte of memory that changed lies inside the
exception buffer;
`getReusedResultBuffer` and `getReusedResultBufferCapacity` return `rb` and
`rc`. -/
theorem resetReusedResultOutputBuffer_resets (X : Externals L Q S) (e : VoltDBEngine L Q S)
    (rb : Nat) (rc : Int) (eb : Nat) (ec : Int) (mem : Memory) (hcap : 4 ≤ ec)
    (hlo : -2147483648 ≤ X.VOLT_EE_EXCEPTION_TYPE_NONE)
    (hhi : X.VOLT_EE_EXCEPTION_TYPE_NONE < 2147483648) :
    (resetReusedResultOutputBuffer X (setBuffers e rb rc eb ec) mem).1
      = { e with m_reusedResultBuffer := rb,
                 m_reusedResultCapacity := rc,
                 m_exceptionBuffer := eb,
                 m_exceptionBufferCapacity := ec,
                 m_resultOutput := X.fallbackInitializeWithPosition e.m_resultOutput rb rc 0,
                 m_exceptionOutput :=
                   X.referenceInitializeWithPosition e.m_exceptionOutput eb ec 0 } ∧
    loadInt32 (resetReusedResultOutputBuffer X (setBuffers e rb rc eb ec) mem).2 eb
      = X.VOLT_EE_EXCEPTION_TYPE_NONE ∧
    (∀ a, (resetReusedResultOutputBuffer X (setBuffers e rb rc eb ec) mem).2 a ≠ mem a →
      eb ≤ a ∧ (a : Int) < (eb : Int) + ec) ∧
    getReusedResultBuffer (resetReusedResultOutputBuffer X (setBuffers e rb rc eb ec) mem).1
      = rb ∧
    getReusedResultBufferCapacity
      (resetReusedResultOutputBuffer X (setBuffers e rb rc eb ec) mem).1 = rc := by
  refine ⟨rfl, ?_, ?_, rfl, rfl⟩
  · exact loadInt32_storeInt32 mem eb _ hlo hhi
  · intro a ha
    by_contra hout
    have hfar : a < eb ∨ eb + 4 ≤ a := by omega
    exact ha (storeInt32_outside mem eb X.VOLT_EE_EXCEPTION_TYPE_NONE a hfar)

/-- Witness of C9: a 1024-byte result buffer at address 4096 and a 64-byte
exception buffer at address 8192, in a memory filled with the byte 255. -/
theorem resetReusedResultOutputBuffer_resets_witness :
    (resetReusedResultOutputBuffer specExternals
        (setBuffers (testEngine rawEngine) 4096 1024 8192 64) (fun _ => 255)).1
      = { testEngine rawEngine with
            m_reusedResultBuffer := 4096,
            m_reusedResultCapacity := 1024,
            m_exceptionBuffer := 8192,
            m_exceptionBufferCapacity := 64,
            m_resultOutput := { buffer := 4096, capacity := 1024, position := 0 },
            m_exceptionOutput := { buffer := 8192, capacity := 64, position := 0 } } ∧
    loadInt32 (resetReusedResultOutputBuffer specExternals
        (setBuffers (testEngine rawEngine) 4096 1024 8192 64) (fun _ => 255)).2 8192 = 0 :=
  ⟨(resetReusedResultOutputBuffer_resets specExternals (testEngine rawEngine)
      4096 1024 8192 64 (fun _ => 255) (by decide) (by decide) (by decide)).1,
   (resetReusedResultOutputBuffer_resets specExternals (testEngine rawEngine)
      4096 1024 8192 64 (fun _ => 255) (by decide) (by decide) (by decide)).2.1⟩

end BufferReset

section Sentinel

variable {L Q S : Type}

/-- C11. Sentinel quantum makes release and undo no-ops: an engine built by the
constructor for test code has the sentinel quantum as its current quantum,
output and input dependency ids -1 and zero result dependencies, whatever the
members the constructor leaves uninitialised hold; and in every engine state
whose current quantum is the sentinel, `releaseUndoToken(u)` and
`undoUndoToken(u)` return the engine unchanged for every token `u` and every
implementation of the undo log: the undo log is as before (neither `release`
nor `undo` was applied to it) and the sentinel is still current. -/
theorem sentinel_release_undo_noop (X : Externals L Q S) (e : VoltDBEngine L Q S) (u : Int)
    (raw : VoltDBEngine UndoLog UndoQuantum SerializeOutput)
    (hcur : e.m_currentUndoQuantum = QuantumPtr.dummy) :
    ((testEngine raw).m_currentUndoQuantum = QuantumPtr.dummy ∧
      (testEngine raw).m_currentOutputDepId = -1 ∧
      (testEngine raw).m_currentInputDepId = -1 ∧
      (testEngine raw).m_numResultDependencies = 0) ∧
    releaseUndoToken X e u = e ∧
    undoUndoToken X e u = e ∧
    (releaseUndoToken X e u).m_currentUndoQuantum = QuantumPtr.dummy ∧
    (undoUndoToken X e u).m_currentUndoQuantum = QuantumPtr.dummy := by
  have hrel : releaseUndoToken X e u = e := by
    simp [releaseUndoToken, hcur]
  have hundo : undoUndoToken X e u = e := by
    simp [undoUndoToken, hcur]
  refine ⟨⟨rfl, rfl, rfl, rfl⟩, hrel, hundo, ?_, ?_⟩
  · rw [hrel]
    exact hcur
  · rw [hundo]
    exact hcur

/-- Witness of C11: releasing and undoing token 5 on a fresh test engine, whose
current quantum is the sentinel, leaves the engine as constructed. -/
theorem sentinel_release_undo_noop_witness :
    (testEngine rawEngine).m_currentUndoQuantum = QuantumPtr.dummy ∧
    releaseUndoToken specExternals (testEngine rawEngine) 5 = testEngine rawEngine ∧
    undoUndoToken specExternals (testEngine rawEngine) 5 = testEngine rawEngine :=
  ⟨rfl,
   (sentinel_release_undo_noop specExternals (testEngine rawEngine) 5 rawEngine rfl).2.1,
   (sentinel_release_undo_noop specExternals (testEngine rawEngine) 5 rawEngine rfl).2.2.1⟩

end Sentinel

end voltdb
